import Mathlib

/-!
Verification of the country-dashboard application (`run.py`).

The file shallowly embeds the data-shaping logic of the dashboard:

* the loader's derived-density computation (`load_data`),
* the external country-information lookup (`get_country_data_by_cca3`),
* the per-indicator chart-style dispatch and title fallback of both the
  Country Details tab and the Compare Countries tab,
* the "latest value" selection (`sort_values('year')` then `iloc[-1]`),
* the comparison-table assembly (card-indicator rows plus static-attribute
  rows, selection truncation at `MAX_COUNTRIES`) and the cell formatter
  `fmt_cell`.

Machine floats carrying data values are modelled as `Option ℚ` (`none` is
`None`/`NaN`, i.e. an absent value); pandas rows are lists of records.
-/

/-- An indicator observation: one row of the `indicators` table
(`country_code` is fixed per query, so it is omitted). `value = none`
models a SQL NULL / pandas `NaN`. -/
structure Obs where
  indicator : String
  year : Int
  value : Option ℚ
deriving DecidableEq

/-- A value held in one cell of the comparison table before formatting:
pandas `None`/`NaN`, a number, or a string. -/
inductive CellVal where
  | absent : CellVal
  | num : ℚ → CellVal
  | str : String → CellVal
deriving DecidableEq

/-- The chart constructors used by the dashboard (`px.bar`, `px.area`,
`px.scatter`, `px.line(markers=True)`). -/
inductive ChartStyle where
  | bar : ChartStyle
  | area : ChartStyle
  | scatter : ChartStyle
  | line : ChartStyle
deriving DecidableEq

/-- The `card_indicators` list from `run.py`: the fixed priority list of headline
("card") indicators. -/
def card_indicators : List String :=
  ["gdp_current_usd", "gdp_per_capita", "gdp_growth_percent", "inflation_percent",
   "unemployment_percent", "population_total", "imports_usd", "exports_usd"]

/-- The `card_titles` dict from `run.py`: labels for the card indicators, used as the
comparison table's indicator row labels. -/
def card_titles : List (String × String) :=
  [("gdp_current_usd", "💰 ВВП (USD)"),
   ("population_total", "👥 Население"),
   ("gdp_per_capita", "👤 ВВП на душу"),
   ("gdp_growth_percent", "📈 Рост ВВП (%)"),
   ("inflation_percent", "🔥 Инфляция (%)"),
   ("unemployment_percent", "📉 Безработица (%)"),
   ("imports_usd", "📦 Импорт (USD)"),
   ("exports_usd", "🚢 Экспорт (USD)")]

/-- Association-list lookup, the embedding of Python's `dict.get`. -/
def dictGet (m : List (String × String)) (k : String) : Option String :=
  match m with
  | [] => none
  | (k', v) :: rest => if k = k' then some v else dictGet rest k

/-- The `title_map` literal that appears (identically) in the Country
Details tab and in the Compare Countries tab. -/
def title_map : List (String × String) :=
  [("gdp_current_usd", "💰 ВВП (текущий, USD)"),
   ("gdp_per_capita", "👤 ВВП на душу населения"),
   ("gdp_growth_percent", "📈 Рост ВВП (%)"),
   ("inflation_percent", "🔥 Инфляция (%)"),
   ("unemployment_percent", "📉 Безработица (%)"),
   ("population_total", "👥 Население"),
   ("imports_usd", "📦 Импорт (USD)"),
   ("exports_usd", "🚢 Экспорт (USD)"),
   ("exports_pct_gdp", "📊 Экспорт (% ВВП)"),
   ("imports_pct_gdp", "📊 Импорт (% ВВП)"),
   ("current_account_pct_gdp", "💼 Текущий счёт (% ВВП)"),
   ("capital_formation_pct_gdp", "🏗️ Капитальные вложения (% ВВП)"),
   ("govt_expenditure_pct_gdp", "🏛️ Госрасходы (% ВВП)")]

/-- Python `str.replace('_', ' ')` for the single-character pattern: a
character-wise map. -/
def replaceUnderscores (s : String) : String :=
  String.mk (s.data.map (fun c => if c = '_' then ' ' else c))

/-- Python `str.capitalize()`: first character upper-cased, the rest
lower-cased. -/
def pyCapitalize (s : String) : String :=
  match s.data with
  | [] => ""
  | c :: cs => String.mk (c.toUpper :: cs.map Char.toLower)

/-- The generated fallback label `ind.replace('_', ' ').capitalize()`. -/
def fallbackLabel (ind : String) : String :=
  pyCapitalize (replaceUnderscores ind)

/-- Lookup `title_map.get(indicator, indicator.replace('_', ' ').capitalize())`,
as used in both tabs. -/
def titleFor (ind : String) : String :=
  match dictGet title_map ind with
  | some t => t
  | none => fallbackLabel ind

/-- Chart dispatch of the Country Details tab (`run.py` lines 324-335):
bar for the three percentage indicators, area for `population_total`,
scatter for the two trade-share indicators, otherwise line with markers. -/
def chartStyleDetails (ind : String) : ChartStyle :=
  if ind ∈ ["gdp_growth_percent", "inflation_percent", "unemployment_percent"] then .bar
  else if ind ∈ ["population_total"] then .area
  else if ind ∈ ["exports_pct_gdp", "imports_pct_gdp"] then .scatter
  else .line

/-- Chart dispatch of the Compare Countries tab (`run.py` lines 560-571):
bar for the three percentage indicators, area for `population_total`,
bar again for the three USD aggregates, otherwise line with markers.
There is no scatter branch in this tab. -/
def chartStyleCompare (ind : String) : ChartStyle :=
  if ind ∈ ["gdp_growth_percent", "inflation_percent", "unemployment_percent"] then .bar
  else if ind ∈ ["population_total"] then .area
  else if ind ∈ ["gdp_current_usd", "imports_usd", "exports_usd"] then .bar
  else .line

example : chartStyleDetails "exports_pct_gdp" = .scatter := by decide
example : chartStyleCompare "exports_pct_gdp" = .line := by decide
example : titleFor "foo_bar_baz" = "Foo bar baz" := by decide

/-! ## Latest-value selection

Both tabs select the "latest" value of an indicator with
`wb[wb['indicator'] == ind].sort_values('year')` followed by
`t.iloc[-1]['value']`: filter, sort by year, take the value of the last
row — whatever that value is. -/

/-- The comparison relation used by `sort_values('year')`. -/
def yearLE (a b : Obs) : Prop := a.year ≤ b.year

instance : DecidableRel yearLE := fun a b => inferInstanceAs (Decidable (a.year ≤ b.year))

instance : IsTotal Obs yearLE := ⟨fun a b => Int.le_total a.year b.year⟩

instance : IsTrans Obs yearLE := ⟨fun _ _ _ => Int.le_trans⟩

/-- Filter `wb[wb['indicator'] == ind]`: the observations of one indicator, in
source row order. -/
def rowsFor (wb : List Obs) (ind : String) : List Obs :=
  wb.filter (fun o => o.indicator = ind)

/-- Sorting `.sort_values('year')`. -/
def sortByYear (l : List Obs) : List Obs :=
  List.insertionSort yearLE l

/-- The row picked by `t.iloc[-1]` after sorting, when any row exists. -/
def latestRow (wb : List Obs) (ind : String) : Option Obs :=
  (sortByYear (rowsFor wb ind)).getLast?

/-- The "latest value": `t.iloc[-1]['value']` when the filtered frame is
non-empty, `None` otherwise (`val = None` stays in place in the code). -/
def latestValue (wb : List Obs) (ind : String) : Option ℚ :=
  match latestRow wb ind with
  | none => none
  | some o => o.value

/-! ## Loader: derived density (`load_data`) -/

/-- Cleaning `df['area'].replace({0: pd.NA})`: a zero area becomes absent. -/
def cleanArea (a : Option ℚ) : Option ℚ :=
  match a with
  | none => none
  | some x => if x = 0 then none else some x

/-- Derived `df['density'] = df['population'] / df['area']` after the zero-area
replacement: absent whenever either operand is absent (`NaN` propagates),
the exact quotient otherwise. -/
def density (pop : Option ℚ) (a : Option ℚ) : Option ℚ :=
  match pop, cleanArea a with
  | some p, some x => some (p / x)
  | _, _ => none

/-! ## External country-information lookup -/

/-- One currency entry of a REST-countries document: `val.get('name')`,
`val.get('symbol', '')`. -/
structure Currency where
  name : Option String
  symbol : Option String
deriving DecidableEq

/-- The fields of the external country document that the comparison table
and the detail view read. `none` models a missing key. -/
structure RestDoc where
  borders : Option (List String)
  timezones : Option (List String)
  languages : Option (List String)
  tld : Option (List String)
  currencies : Option (List (String × Currency))
  area : Option ℚ
  continents : Option (List String)
  capital : Option (List String)
deriving DecidableEq

/-- The outcome of the HTTP GET in `get_country_data_by_cca3`: either a
response with a status code and a decoded JSON array, or any raised
failure (timeout, connection error, decode error). -/
inductive FetchResult where
  | ok (status : Nat) (body : List RestDoc)
  | error
deriving DecidableEq

/-- Lookup `get_country_data_by_cca3`: returns the first document on a 200
response, `None` on a non-200 status, an empty body (the `[0]` raises
inside the `try`), or any exception. -/
def get_country_data_by_cca3 : FetchResult → Option RestDoc
  | .ok status body => if status = 200 then body.head? else none
  | .error => none

/-- What the Country Details tab renders for the looked-up document:
`if not country: st.error(...); st.stop()`. -/
inductive DetailView where
  | notFound : DetailView
  | details (doc : RestDoc) : DetailView
deriving DecidableEq

/-- The not-found gate of the Country Details tab. -/
def renderCountryDetail (c : Option RestDoc) : DetailView :=
  match c with
  | none => .notFound
  | some d => .details d

/-! ## The cell formatter `fmt_cell` and Python `int` semantics -/

/-- Python `int(x)` on a number: truncation toward zero. -/
def pyInt (q : ℚ) : Int :=
  if q < 0 then -(Rat.floor (-q)) else Rat.floor q

/-- Group a reversed digit string into blocks of three separated by commas
(the core of Python's `f"{n:,}"` format). -/
def groupAux : List Char → List Char
  | [] => []
  | [a] => [a]
  | [a, b] => [a, b]
  | [a, b, c] => [a, b, c]
  | a :: b :: c :: d :: rest => a :: b :: c :: ',' :: groupAux (d :: rest)

/-- Formatting `f"{n:,}"` for an integer `n`: decimal digits grouped in threes with
commas, with a leading minus sign for negatives. -/
def fmtIntGrouped (n : Int) : String :=
  (if n < 0 then "-" else "") ++ String.mk ((groupAux (Nat.toDigits 10 n.natAbs).reverse).reverse)

/-- A non-empty all-digit character list read as a number. -/
def parseDigits (l : List Char) : Option Nat :=
  if l = [] then none
  else if l.all Char.isDigit then
    some (l.foldl (fun acc c => acc * 10 + (c.toNat - 48)) 0)
  else none

/-- Python `int(s)` on a string: surrounding spaces stripped, an optional
sign followed by digits; anything else raises (here: `none`). -/
def pyIntOfString (s : String) : Option Int :=
  let l := ((s.data.dropWhile (fun c => c = ' ')).reverse.dropWhile (fun c => c = ' ')).reverse
  match l with
  | '-' :: rest => (parseDigits rest).map (fun n => -(n : Int))
  | '+' :: rest => (parseDigits rest).map (fun n => (n : Int))
  | rest => (parseDigits rest).map (fun n => (n : Int))

/-- Formatter `fmt_cell`: absent values render as the em-dash; anything `int()`
accepts renders as the grouped integer string; everything else is
returned unchanged (the bare `except` branch). It is total — nothing
escapes it. -/
def fmt_cell (x : CellVal) : CellVal :=
  match x with
  | .absent => .str "—"
  | .num q => .str (fmtIntGrouped (pyInt q))
  | .str s =>
    match pyIntOfString s with
    | some n => .str (fmtIntGrouped n)
    | none => .str s

/-! ## Comparison-table assembly -/

/-- Joining `', '.join(...)`. -/
def joinComma (l : List String) : String := String.intercalate ", " l

/-- Cell `', '.join(rc.get('borders', [])) if rc.get('borders') else '—'`: a
missing key and an empty list are both falsy. -/
def bordersCell (rc : RestDoc) : String :=
  match rc.borders with
  | some (x :: xs) => joinComma (x :: xs)
  | _ => "—"

/-- Cell `', '.join(rc.get('timezones', [])) if rc.get('timezones') else '—'`. -/
def timezonesCell (rc : RestDoc) : String :=
  match rc.timezones with
  | some (x :: xs) => joinComma (x :: xs)
  | _ => "—"

/-- Cell `', '.join(rc.get('languages', {}).values()) if rc.get('languages') else '—'`. -/
def languagesCell (rc : RestDoc) : String :=
  match rc.languages with
  | some (x :: xs) => joinComma (x :: xs)
  | _ => "—"

/-- Cell `', '.join(rc.get('tld', [])) if rc.get('tld') else '—'`. -/
def tldCell (rc : RestDoc) : String :=
  match rc.tld with
  | some (x :: xs) => joinComma (x :: xs)
  | _ => "—"

/-- The currency row: the first entry of the `currencies` dict formatted
as `CODE — name (symbol)`, or the em-dash when the dict is missing or
empty. -/
def currencyCell (rc : RestDoc) : String :=
  match rc.currencies with
  | some ((code, cur) :: _) =>
      code ++ " — " ++ cur.name.getD "" ++ " (" ++ cur.symbol.getD "" ++ ")"
  | _ => "—"

/-- The area row: the API area when truthy (present and non-zero), else
the loader's area when not `NaN`, else the em-dash. -/
def areaCell (rc : RestDoc) (dfArea : Option ℚ) : String :=
  let fallback :=
    match dfArea with
    | some d => fmtIntGrouped (pyInt d)
    | none => "—"
  match rc.area with
  | some a => if a = 0 then fallback else fmtIntGrouped (pyInt a)
  | none => fallback

/-- Cell `', '.join(rc.get('continents', [])) if rc.get('continents') else '—'`. -/
def continentsCell (rc : RestDoc) : String :=
  match rc.continents with
  | some (x :: xs) => joinComma (x :: xs)
  | _ => "—"

/-- Cell `', '.join(rc.get('capital', [])) if rc.get('capital') else '—'`. -/
def capitalCell (rc : RestDoc) : String :=
  match rc.capital with
  | some (x :: xs) => joinComma (x :: xs)
  | _ => "—"

/-- One indicator cell of a country's column: the latest value, absent
when the country has no rows for the indicator or the picked row's value
is `NaN`. -/
def indicatorCell (wb : List Obs) (ind : String) : CellVal :=
  match latestValue wb ind with
  | none => .absent
  | some q => .num q

/-- Rows `table_rows = [card_titles.get(i, i) for i in card_indicators]`. -/
def tableRows : List String :=
  card_indicators.map (fun i => (dictGet card_titles i).getD i)

/-- Labels `extra_rows` from `run.py`. -/
def extraRowLabels : List String :=
  ["🌍Соседние страны", "🕒Временные зоны", "💬Языки",
   "💻TLD", "💱Валюта", "🏞️Площадь", "🗺️Континент", "🏙️Столица"]

/-- Index `table_index = table_rows + extra_rows`: the fixed row index of the
comparison table. -/
def tableIndex : List String := tableRows ++ extraRowLabels

/-- One country's column of `latest_table`: the eight card-indicator
latest values followed by the eight static-attribute strings. -/
def buildColumn (wb : List Obs) (rc : RestDoc) (dfArea : Option ℚ) : List CellVal :=
  (card_indicators.map (fun ind => indicatorCell wb ind)) ++
  ([bordersCell rc, timezonesCell rc, languagesCell rc, tldCell rc,
    currencyCell rc, areaCell rc dfArea, continentsCell rc, capitalCell rc].map CellVal.str)

/-- Display `display_table = latest_table.map(fmt_cell)`: the column as shown. -/
def displayColumn (wb : List Obs) (rc : RestDoc) (dfArea : Option ℚ) : List CellVal :=
  (buildColumn wb rc dfArea).map fmt_cell

/-! ## Selection truncation and indicator ordering -/

/-- Cap `MAX_COUNTRIES = 8`. -/
def MAX_COUNTRIES : Nat := 8

/-- Truncation `selected_names[:MAX_COUNTRIES]` when over the cap, unchanged
otherwise. -/
def truncatedSelection (names : List String) : List String :=
  if names.length > MAX_COUNTRIES then names.take MAX_COUNTRIES else names

/-- Whether the `st.warning` truncation message is shown. -/
def truncationWarning (names : List String) : Bool :=
  decide (names.length > MAX_COUNTRIES)

/-- The column labels of `latest_table`: one column per truncated selected
name, a repeated `latest_table[name] = ...` assignment overwriting rather
than duplicating a label. -/
def tableColumns (names : List String) : List String :=
  (truncatedSelection names).dedup

/-- The Compare tab's indicator order (`run.py` lines 528-529): card
indicators present in the data first, in card priority order, then the
remaining indicators in encounter order. -/
def orderedIndicators (present : List String) : List String :=
  (card_indicators.filter (fun i => i ∈ present)) ++
  (present.filter (fun i => i ∉ card_indicators))

/-- The Country Details tab's indicator order (`run.py` line 295):
`wb_data['indicator'].unique()` iterated directly, i.e. encounter order
with no reordering. -/
def detailsIndicators (present : List String) : List String := present

/-! ## Helper lemmas -/

/-- In a year-sorted list, everything is bounded by the last element. -/
theorem sorted_getLast_year_le {l : List Obs} (hs : List.Sorted yearLE l)
    {o : Obs} (h : l.getLast? = some o) : ∀ x ∈ l, x.year ≤ o.year := by
  induction l with
  | nil => simp at h
  | cons a t ih =>
    cases t with
    | nil =>
      simp only [List.getLast?_singleton, Option.some.injEq] at h
      subst h
      intro x hx
      simp only [List.mem_singleton] at hx
      subst hx
      exact le_refl _
    | cons b t' =>
      rw [List.getLast?_cons_cons] at h
      intro x hx
      rcases List.mem_cons.mp hx with rfl | hx'
      · have ho : o ∈ b :: t' := List.mem_of_getLast?_eq_some h
        exact List.rel_of_sorted_cons hs o ho
      · exact ih hs.of_cons h x hx'

/-- The row picked by `sort_values('year')` + `iloc[-1]` is one of the
filtered rows and it carries a maximal year among them. -/
theorem latestRow_max (wb : List Obs) (ind : String) (h : rowsFor wb ind ≠ []) :
    ∃ o, latestRow wb ind = some o ∧ o ∈ rowsFor wb ind ∧
      ∀ x ∈ rowsFor wb ind, x.year ≤ o.year := by
  have hperm : List.Perm (sortByYear (rowsFor wb ind)) (rowsFor wb ind) :=
    List.perm_insertionSort yearLE (rowsFor wb ind)
  have hsorted : List.Sorted yearLE (sortByYear (rowsFor wb ind)) :=
    List.sorted_insertionSort yearLE (rowsFor wb ind)
  cases heq : (sortByYear (rowsFor wb ind)).getLast? with
  | none =>
    exfalso
    apply h
    have hnil : sortByYear (rowsFor wb ind) = [] := List.getLast?_eq_none_iff.mp heq
    rw [hnil] at hperm
    exact hperm.symm.eq_nil
  | some o =>
    refine ⟨o, heq, ?_, ?_⟩
    · exact hperm.mem_iff.mp (List.mem_of_getLast?_eq_some heq)
    · intro x hx
      exact sorted_getLast_year_le hsorted heq x (hperm.mem_iff.mpr hx)

/-- A key absent from an association list looks up to `none`. -/
theorem dictGet_eq_none_of_not_mem (m : List (String × String)) (k : String)
    (h : k ∉ m.map Prod.fst) : dictGet m k = none := by
  induction m with
  | nil => rfl
  | cons p rest ih =>
    obtain ⟨k', v⟩ := p
    simp only [List.map_cons, List.mem_cons] at h
    push_neg at h
    obtain ⟨h1, h2⟩ := h
    simp only [dictGet]
    rw [if_neg h1]
    exact ih h2

/-! ## Claims -/

/-- The spec's latest-value scenario: observations
`[(2020,100),(2021,110),(2022,absent)]` for `gdp_current_usd`. -/
def c1Obs : List Obs :=
  [⟨"gdp_current_usd", 2020, some 100⟩,
   ⟨"gdp_current_usd", 2021, some 110⟩,
   ⟨"gdp_current_usd", 2022, none⟩]

/-- C1 (counterexample): on the spec's own scenario the code's
latest-value selection (`sort_values('year')` then `iloc[-1]['value']`)
returns the absent 2022 value, not 110 from 2021: the selection does not
skip absent-valued rows. -/
theorem c1_counterexample :
    latestValue c1Obs "gdp_current_usd" = none ∧
    latestValue c1Obs "gdp_current_usd" ≠ some 110 := by decide

/-- C1 (amended): for every country and indicator with at least one
observation, the latest value shown is the value of a maximum-year
observation — whether or not that value is absent — independent of the
row order of the source observations. -/
theorem c1_latest_is_max_year_value (wb : List Obs) (ind : String)
    (h : rowsFor wb ind ≠ []) :
    ∃ o ∈ rowsFor wb ind, latestValue wb ind = o.value ∧
      ∀ x ∈ rowsFor wb ind, x.year ≤ o.year := by
  obtain ⟨o, h1, h2, h3⟩ := latestRow_max wb ind h
  refine ⟨o, h2, ?_, h3⟩
  unfold latestValue
  rw [h1]

/-- C1 (witness): the amended statement evaluated on the spec scenario. -/
theorem c1_witness :
    ∃ o ∈ rowsFor c1Obs "gdp_current_usd",
      latestValue c1Obs "gdp_current_usd" = o.value ∧
      ∀ x ∈ rowsFor c1Obs "gdp_current_usd", x.year ≤ o.year :=
  c1_latest_is_max_year_value c1Obs "gdp_current_usd" (by decide)

/-- C2: for every loaded country record, density is `population / area`
whenever the area is positive, and is absent — not an arithmetic error
and not infinity — whenever the area is zero or absent. -/
theorem c2_density_division (pop : ℚ) (a : Option ℚ) :
    (∀ x : ℚ, a = some x → 0 < x → density (some pop) a = some (pop / x)) ∧
    ((a = none ∨ a = some 0) → density (some pop) a = none) := by
  constructor
  · intro x hx hpos
    subst hx
    simp [density, cleanArea, ne_of_gt hpos]
  · rintro (rfl | rfl) <;> simp [density, cleanArea]

/-- C2 (witness): a record with population 100 and area 8 gets density
100/8; zero and absent areas give an absent density. -/
theorem c2_witness :
    density (some 100) (some 8) = some (100 / 8) ∧
    density (some 100) (some 0) = none ∧
    density (some 100) none = none :=
  ⟨(c2_density_division 100 (some 8)).1 8 rfl (by norm_num),
   (c2_density_division 100 (some 0)).2 (Or.inr rfl),
   (c2_density_division 100 none).2 (Or.inl rfl)⟩

/-- C3 (counterexample): the percent-of-GDP ratio indicators do not all
get a scatter chart, and the policy differs between the two render sites:
`exports_pct_gdp` is scatter in the Country Details tab but line in the
Compare Countries tab, and `current_account_pct_gdp` is a percent-of-GDP
ratio that gets a line chart even in the Details tab. -/
theorem c3_counterexample :
    chartStyleDetails "exports_pct_gdp" = .scatter ∧
    chartStyleCompare "exports_pct_gdp" = .line ∧
    chartStyleDetails "current_account_pct_gdp" = .line := by decide

/-- C3 (amended): the actual chart policies. Both tabs: bar for the
growth/inflation/unemployment indicators and area for `population_total`.
They then diverge: the Details tab draws `exports_pct_gdp` and
`imports_pct_gdp` as scatter (the other percent-of-GDP ratios as line)
while the Compare tab draws them as line; the Compare tab draws the three
USD aggregates as bar while the Details tab draws them as line. All
remaining indicators get a line chart with markers in both tabs. -/
theorem c3_chart_policy (ind : String) :
    (ind ∈ ["gdp_growth_percent", "inflation_percent", "unemployment_percent"] →
      chartStyleDetails ind = .bar ∧ chartStyleCompare ind = .bar) ∧
    (ind ∈ ["population_total"] →
      chartStyleDetails ind = .area ∧ chartStyleCompare ind = .area) ∧
    (ind ∈ ["exports_pct_gdp", "imports_pct_gdp"] →
      chartStyleDetails ind = .scatter ∧ chartStyleCompare ind = .line) ∧
    (ind ∈ ["gdp_current_usd", "imports_usd", "exports_usd"] →
      chartStyleDetails ind = .line ∧ chartStyleCompare ind = .bar) ∧
    (ind ∉ ["gdp_growth_percent", "inflation_percent", "unemployment_percent"] →
      ind ∉ ["population_total"] →
      ind ∉ ["exports_pct_gdp", "imports_pct_gdp"] →
      ind ∉ ["gdp_current_usd", "imports_usd", "exports_usd"] →
      chartStyleDetails ind = .line ∧ chartStyleCompare ind = .line) := by
  refine ⟨?_, ?_, ?_, ?_, ?_⟩
  · intro hm
    simp only [List.mem_cons, List.not_mem_nil, or_false] at hm
    rcases hm with rfl | rfl | rfl <;> exact ⟨by decide, by decide⟩
  · intro hm
    simp only [List.mem_cons, List.not_mem_nil, or_false] at hm
    subst hm
    exact ⟨by decide, by decide⟩
  · intro hm
    simp only [List.mem_cons, List.not_mem_nil, or_false] at hm
    rcases hm with rfl | rfl <;> exact ⟨by decide, by decide⟩
  · intro hm
    simp only [List.mem_cons, List.not_mem_nil, or_false] at hm
    rcases hm with rfl | rfl | rfl <;> exact ⟨by decide, by decide⟩
  · intro h1 h2 h3 h4
    unfold chartStyleDetails chartStyleCompare
    rw [if_neg h1, if_neg h2, if_neg h3, if_neg h1, if_neg h2, if_neg h4]
    exact ⟨rfl, rfl⟩

/-- C3 (witness): the amended policy evaluated at concrete indicators
from each branch. -/
theorem c3_witness :
    chartStyleDetails "inflation_percent" = .bar ∧
    chartStyleCompare "gdp_current_usd" = .bar ∧
    chartStyleDetails "electricity_access_percent" = .line :=
  ⟨((c3_chart_policy "inflation_percent").1 (by decide)).1,
   ((c3_chart_policy "gdp_current_usd").2.2.2.1 (by decide)).2,
   ((c3_chart_policy "electricity_access_percent").2.2.2.2
      (by decide) (by decide) (by decide) (by decide)).1⟩

/-- C5: for every indicator id outside the fixed catalog (`title_map`),
both tabs use the generated fallback label — underscores replaced by
spaces, then capitalized — and the line-with-markers chart style. -/
theorem c5_fallback_dispatch (ind : String) (h : ind ∉ title_map.map Prod.fst) :
    titleFor ind = pyCapitalize (replaceUnderscores ind) ∧
    chartStyleDetails ind = .line ∧ chartStyleCompare ind = .line := by
  have hget : dictGet title_map ind = none := dictGet_eq_none_of_not_mem _ _ h
  simp only [title_map, List.map_cons, List.map_nil, List.mem_cons,
    List.not_mem_nil, or_false] at h
  push_neg at h
  obtain ⟨n1, n2, n3, n4, n5, n6, n7, n8, n9, n10, n11, n12, n13⟩ := h
  refine ⟨?_, ?_, ?_⟩
  · simp [titleFor, hget, fallbackLabel]
  · simp [chartStyleDetails, n3, n4, n5, n6, n9, n10]
  · simp [chartStyleCompare, n3, n4, n5, n6, n1, n7, n8]

/-- C5 (witness): the unknown id `literacy_rate` gets the generated label
and the line style in both tabs. -/
theorem c5_witness :
    titleFor "literacy_rate" = "Literacy rate" ∧
    chartStyleDetails "literacy_rate" = .line ∧
    chartStyleCompare "literacy_rate" = .line := by
  have h := c5_fallback_dispatch "literacy_rate" (by decide)
  refine ⟨?_, h.2.1, h.2.2⟩
  rw [h.1]
  decide

/-- C4: for a deduplicated selection (the multiselect widget yields
distinct names), the comparison table has one column per selected
country, capped at `MAX_COUNTRIES = 8`; an over-cap selection is
truncated to its first 8 entries with the truncation warning surfaced,
and the table then has exactly 8 columns. -/
theorem c4_columns_capped (names : List String) (h : names.Nodup) :
    (tableColumns names).length = min names.length MAX_COUNTRIES ∧
    (names.length > MAX_COUNTRIES →
      truncationWarning names = true ∧ (tableColumns names).length = MAX_COUNTRIES) := by
  have key : (tableColumns names).length = min names.length MAX_COUNTRIES := by
    unfold tableColumns truncatedSelection
    by_cases hlen : names.length > MAX_COUNTRIES
    · rw [if_pos hlen]
      have hnd : (names.take MAX_COUNTRIES).Nodup :=
        List.Nodup.sublist (List.take_sublist MAX_COUNTRIES names) h
      rw [hnd.dedup, List.length_take]
      omega
    · rw [if_neg hlen, h.dedup]
      omega
  refine ⟨key, fun hgt => ⟨?_, ?_⟩⟩
  · simp [truncationWarning, hgt]
  · rw [key]
    omega

/-- The spec's truncation scenario: ten distinct selected countries. -/
def c4Names : List String :=
  ["AUT", "BEL", "CHE", "DEU", "DNK", "ESP", "FIN", "FRA", "GBR", "GRC"]

/-- C4 (witness): selecting ten countries yields the warning and exactly
eight columns. -/
theorem c4_witness :
    (tableColumns c4Names).length = min c4Names.length MAX_COUNTRIES ∧
    truncationWarning c4Names = true ∧
    (tableColumns c4Names).length = MAX_COUNTRIES :=
  ⟨(c4_columns_capped c4Names (by decide)).1,
   ((c4_columns_capped c4Names (by decide)).2 (by decide)).1,
   ((c4_columns_capped c4Names (by decide)).2 (by decide)).2⟩

/-- A two-indicator data set on which the two tabs render the indicator
charts in different orders. -/
def c6Present : List String := ["exports_pct_gdp", "gdp_current_usd"]

/-- C6 (counterexample): the card-indicators-first ordering is applied
only in the Compare Countries tab; the Country Details tab iterates
`wb_data['indicator'].unique()` in encounter order, so the two render
sites disagree on this data set. -/
theorem c6_counterexample :
    detailsIndicators c6Present ≠ orderedIndicators c6Present ∧
    orderedIndicators c6Present = ["gdp_current_usd", "exports_pct_gdp"] ∧
    detailsIndicators c6Present = ["exports_pct_gdp", "gdp_current_usd"] := by decide

/-- C6 (amended): in the Compare Countries tab, the rendered indicator
list puts the canonical card indicators first in their fixed priority
order, followed by the remaining ids in encounter order, and is a
permutation of the distinct ids present; the Country Details tab instead
renders in plain encounter order. -/
theorem c6_compare_ordering (present : List String) (h : present.Nodup) :
    orderedIndicators present =
      (card_indicators.filter (fun i => i ∈ present)) ++
      (present.filter (fun i => i ∉ card_indicators)) ∧
    List.Perm (orderedIndicators present) present ∧
    detailsIndicators present = present := by
  refine ⟨rfl, ?_, rfl⟩
  have hcardnd : card_indicators.Nodup := by decide
  have e1 : List.Perm (card_indicators.filter (fun i => decide (i ∈ present)))
      (present.filter (fun i => decide (i ∈ card_indicators))) := by
    rw [List.perm_ext_iff_of_nodup (List.Nodup.filter _ hcardnd) (List.Nodup.filter _ h)]
    intro a
    simp only [List.mem_filter, decide_eq_true_eq]
    exact and_comm
  have e2 : (fun i => decide (i ∉ card_indicators)) =
      (fun i => !decide (i ∈ card_indicators)) := by
    funext i
    simp [decide_not]
  have step1 : orderedIndicators present =
      (card_indicators.filter (fun i => decide (i ∈ present))) ++
      (present.filter (fun i => !decide (i ∈ card_indicators))) := by
    unfold orderedIndicators
    rw [e2]
  have p1 : List.Perm
      ((card_indicators.filter (fun i => decide (i ∈ present))) ++
        (present.filter (fun i => !decide (i ∈ card_indicators))))
      ((present.filter (fun i => decide (i ∈ card_indicators))) ++
        (present.filter (fun i => !decide (i ∈ card_indicators)))) :=
    e1.append (List.Perm.refl _)
  have p2 : List.Perm
      ((present.filter (fun i => decide (i ∈ card_indicators))) ++
        (present.filter (fun i => !decide (i ∈ card_indicators))))
      present :=
    List.filter_append_perm _ present
  rw [step1]
  exact p1.trans p2

/-- C6 (witness): the amended statement on the two-indicator data set. -/
theorem c6_witness :
    orderedIndicators c6Present =
      (card_indicators.filter (fun i => i ∈ c6Present)) ++
      (c6Present.filter (fun i => i ∉ card_indicators)) ∧
    List.Perm (orderedIndicators c6Present) c6Present ∧
    detailsIndicators c6Present = c6Present :=
  c6_compare_ordering c6Present (by decide)

/-- C7: every failing external lookup — a raised request failure
(timeout, connection error), a non-200 status, or a 200 response with no
document — yields no country document, and the Country Details tab then
renders the not-found state; the lookup itself is a total function, so no
exception propagates. -/
theorem c7_lookup_not_found (r : FetchResult)
    (h : r = .error ∨ ∃ s b, r = .ok s b ∧ (s ≠ 200 ∨ b = [])) :
    get_country_data_by_cca3 r = none ∧
    renderCountryDetail (get_country_data_by_cca3 r) = .notFound := by
  have hnone : get_country_data_by_cca3 r = none := by
    rcases h with rfl | ⟨s, b, rfl, hsb⟩
    · rfl
    · rcases hsb with hs | rfl
      · simp [get_country_data_by_cca3, hs]
      · simp [get_country_data_by_cca3]
  rw [hnone]
  exact ⟨rfl, rfl⟩

/-- C7 (witness): a 404 for a nonexistent ISO3 code gives no document and
the not-found view. -/
theorem c7_witness :
    get_country_data_by_cca3 (.ok 404 []) = none ∧
    renderCountryDetail (get_country_data_by_cca3 (.ok 404 [])) = .notFound :=
  c7_lookup_not_found (.ok 404 []) (Or.inr ⟨404, [], rfl, Or.inl (by decide)⟩)

/-- C8: comparison-table cells whose underlying datum is absent render
the em-dash — a country with no non-absent observations for an indicator
(no rows, or a `NaN`-valued latest row) and each of the four external-API
attributes when its key is missing. `fmt_cell` and the cell builders are
total functions, so rendering cannot raise. -/
theorem c8_absent_cells_render_dash (wb : List Obs) (ind : String) (rc : RestDoc) :
    ((∀ o ∈ rowsFor wb ind, o.value = none) →
      fmt_cell (indicatorCell wb ind) = .str "—") ∧
    (rc.borders = none → fmt_cell (.str (bordersCell rc)) = .str "—") ∧
    (rc.timezones = none → fmt_cell (.str (timezonesCell rc)) = .str "—") ∧
    (rc.languages = none → fmt_cell (.str (languagesCell rc)) = .str "—") ∧
    (rc.currencies = none → fmt_cell (.str (currencyCell rc)) = .str "—") := by
  have hdash : fmt_cell (.str "—") = .str "—" := by decide
  refine ⟨?_, ?_, ?_, ?_, ?_⟩
  · intro hall
    have hnone : latestValue wb ind = none := by
      by_cases hne : rowsFor wb ind = []
      · unfold latestValue latestRow sortByYear
        rw [hne]
        rfl
      · obtain ⟨o, h1, h2, _⟩ := latestRow_max wb ind hne
        unfold latestValue
        rw [h1]
        exact hall o h2
    simp only [indicatorCell, hnone]
    exact hdash
  · intro hb
    have : bordersCell rc = "—" := by unfold bordersCell; rw [hb]
    rw [this]
    exact hdash
  · intro hb
    have : timezonesCell rc = "—" := by unfold timezonesCell; rw [hb]
    rw [this]
    exact hdash
  · intro hb
    have : languagesCell rc = "—" := by unfold languagesCell; rw [hb]
    rw [this]
    exact hdash
  · intro hb
    have : currencyCell rc = "—" := by unfold currencyCell; rw [hb]
    rw [this]
    exact hdash

/-- A country whose only `gdp_current_usd` observation is `NaN`-valued. -/
def c8Wb : List Obs :=
  [⟨"gdp_current_usd", 2020, none⟩, ⟨"population_total", 2021, some 5⟩]

/-- An external document with every optional attribute missing. -/
def c8Rc : RestDoc := ⟨none, none, none, none, none, none, none, none⟩

/-- C8 (witness): absent observations and missing attributes all render
the em-dash on concrete data. -/
theorem c8_witness :
    fmt_cell (indicatorCell c8Wb "gdp_current_usd") = .str "—" ∧
    fmt_cell (.str (bordersCell c8Rc)) = .str "—" ∧
    fmt_cell (.str (timezonesCell c8Rc)) = .str "—" ∧
    fmt_cell (.str (languagesCell c8Rc)) = .str "—" ∧
    fmt_cell (.str (currencyCell c8Rc)) = .str "—" :=
  ⟨(c8_absent_cells_render_dash c8Wb "gdp_current_usd" c8Rc).1 (by decide),
   (c8_absent_cells_render_dash c8Wb "gdp_current_usd" c8Rc).2.1 rfl,
   (c8_absent_cells_render_dash c8Wb "gdp_current_usd" c8Rc).2.2.1 rfl,
   (c8_absent_cells_render_dash c8Wb "gdp_current_usd" c8Rc).2.2.2.1 rfl,
   (c8_absent_cells_render_dash c8Wb "gdp_current_usd" c8Rc).2.2.2.2 rfl⟩

/-- C9: the formatter is total and behaves by case: absent values render
the em-dash; numbers render the thousands-grouped string of `int(x)`;
strings `int()` rejects pass through unchanged. `int()` itself truncates
toward zero: it is below the value by less than one on non-negatives and
is odd under negation (so it never rounds away from zero). -/
theorem c9_fmt_cell_cases (x : CellVal) :
    (x = .absent → fmt_cell x = .str "—") ∧
    (∀ q : ℚ, x = .num q → fmt_cell x = .str (fmtIntGrouped (pyInt q))) ∧
    (∀ s : String, x = .str s → pyIntOfString s = none → fmt_cell x = .str s) ∧
    (∀ q : ℚ, 0 ≤ q → (pyInt q : ℚ) ≤ q ∧ q - 1 < (pyInt q : ℚ)) ∧
    (∀ q : ℚ, pyInt (-q) = -(pyInt q)) := by
  have hfloor : ∀ q : ℚ, Rat.floor q = ⌊q⌋ := fun q =>
    (Rat.floor_def' q).trans Rat.floor_def.symm
  refine ⟨?_, ?_, ?_, ?_, ?_⟩
  · rintro rfl
    rfl
  · rintro q rfl
    rfl
  · rintro s rfl hnone
    simp [fmt_cell, hnone]
  · intro q hq
    have h0 : ¬ q < 0 := not_lt.mpr hq
    unfold pyInt
    rw [if_neg h0, hfloor]
    refine ⟨Int.floor_le q, ?_⟩
    have := Int.sub_one_lt_floor q
    linarith
  · intro q
    rcases lt_trichotomy q 0 with hlt | rfl | hgt
    · have h1 : ¬ (-q) < 0 := by linarith
      unfold pyInt
      rw [if_neg h1, if_pos hlt, neg_neg]
    · rw [neg_zero]
      have h0 : pyInt 0 = 0 := by decide
      rw [h0, neg_zero]
    · have h1 : (-q) < 0 := by linarith
      have h2 : ¬ q < 0 := by linarith
      unfold pyInt
      rw [if_pos h1, if_neg h2, neg_neg]

/-- C9 (witness): the three formatter cases and the truncation facts on
concrete values (`int(-27/10) = -2`, grouped rendering). -/
theorem c9_witness :
    fmt_cell .absent = .str "—" ∧
    fmt_cell (.num (Rat.divInt (-27) 10)) =
      .str (fmtIntGrouped (pyInt (Rat.divInt (-27) 10))) ∧
    fmt_cell (.str "N/A") = .str "N/A" ∧
    ((pyInt (Rat.divInt 27 10) : ℚ) ≤ Rat.divInt 27 10 ∧
      Rat.divInt 27 10 - 1 < (pyInt (Rat.divInt 27 10) : ℚ)) ∧
    pyInt (-(Rat.divInt 27 10)) = -(pyInt (Rat.divInt 27 10)) :=
  ⟨(c9_fmt_cell_cases .absent).1 rfl,
   (c9_fmt_cell_cases (.num (Rat.divInt (-27) 10))).2.1 _ rfl,
   (c9_fmt_cell_cases (.str "N/A")).2.2.1 _ rfl (by decide),
   (c9_fmt_cell_cases .absent).2.2.2.1 _ (by decide),
   (c9_fmt_cell_cases .absent).2.2.2.2 _⟩

/-- C10: the comparison table always has exactly these 16 rows in this
fixed order — the eight card-indicator labels in card priority order,
then the eight static-attribute labels — and every country's displayed
column has exactly one cell per row, independent of which indicators or
attributes actually have data. -/
theorem c10_table_shape :
    tableIndex =
      ["💰 ВВП (USD)", "👤 ВВП на душу", "📈 Рост ВВП (%)", "🔥 Инфляция (%)",
       "📉 Безработица (%)", "👥 Население", "📦 Импорт (USD)", "🚢 Экспорт (USD)",
       "🌍Соседние страны", "🕒Временные зоны", "💬Языки",
       "💻TLD", "💱Валюта", "🏞️Площадь", "🗺️Континент", "🏙️Столица"] ∧
    tableIndex.length = 16 ∧
    ∀ (wb : List Obs) (rc : RestDoc) (dfArea : Option ℚ),
      (displayColumn wb rc dfArea).length = 16 := by
  refine ⟨by decide, by decide, ?_⟩
  intro wb rc dfArea
  simp [displayColumn, buildColumn, card_indicators]

example : fmt_cell (.num (1234567 : ℚ)) = .str "1,234,567" := by decide
example : fmt_cell (.num (Rat.divInt (-5) 2)) = .str "-2" := by decide
example : fmt_cell (.str "—") = .str "—" := by decide
example : fmt_cell (.str "42") = .str "42" := by decide
example : fmt_cell .absent = .str "—" := by decide
